import Mathlib

/-!
Verification of the soulmate search core of the luna astrology service.

The definitions below are a shallow embedding of
`app/application/soulmate_service.py`.  Python floats are modelled as exact
rationals (all operations used by the code — `abs`, `%`, `+`, `-`, `*`,
comparisons — are exact on the inputs of interest), Python ints as `Int`,
Python `//` and `%` on ints as `/` and `%` on `Int` (Euclidean division and
remainder, which agree with Python floor division and modulus for the
positive divisors this code uses), and the
external astrology provider as an explicit record of functions whose
fallible calls return `Except Unit`.
-/

namespace Soulmate

/-- Python float modulus: `a % b = a - b * floor (a / b)`; for a positive
divisor the result lies in `[0, b)`, exactly as in Python. -/
def fmod (a b : ℚ) : ℚ := a - b * ⌊a / b⌋

/-- Python `int(...)` applied to a rational: truncation toward zero. -/
def pyTrunc (q : ℚ) : ℤ := if 0 ≤ q then ⌊q⌋ else ⌈q⌉

theorem fmod_eq_fract (a : ℚ) {b : ℚ} (hb : b ≠ 0) :
    fmod a b = b * Int.fract (a / b) := by
  unfold fmod Int.fract
  field_simp

theorem fmod_nonneg (a : ℚ) {b : ℚ} (hb : 0 < b) : 0 ≤ fmod a b := by
  rw [fmod_eq_fract a (ne_of_gt hb)]
  exact mul_nonneg (le_of_lt hb) (Int.fract_nonneg _)

theorem fmod_lt (a : ℚ) {b : ℚ} (hb : 0 < b) : fmod a b < b := by
  rw [fmod_eq_fract a (ne_of_gt hb)]
  have h1 : b * Int.fract (a / b) < b * 1 :=
    mul_lt_mul_of_pos_left (Int.fract_lt_one _) hb
  simpa using h1

theorem fmod_add_int_mul (a : ℚ) {b : ℚ} (hb : b ≠ 0) (k : ℤ) :
    fmod (a + b * k) b = fmod a b := by
  rw [fmod_eq_fract _ hb, fmod_eq_fract a hb]
  have h : (a + b * k) / b = a / b + k := by field_simp; ring
  rw [h, Int.fract_add_int]

theorem fmod_neg_eq (a : ℚ) {b : ℚ} (hb : 0 < b) :
    fmod (-a) b = if fmod a b = 0 then 0 else b - fmod a b := by
  have hb0 : b ≠ 0 := ne_of_gt hb
  rw [fmod_eq_fract _ hb0, fmod_eq_fract a hb0, neg_div]
  have hiff : b * Int.fract (a / b) = 0 ↔ Int.fract (a / b) = 0 := by
    constructor
    · intro h
      rcases mul_eq_zero.mp h with h | h
      · exact absurd h hb0
      · exact h
    · intro h; rw [h, mul_zero]
  rcases eq_or_ne (Int.fract (a / b)) 0 with h | h
  · rw [if_pos (hiff.mpr h), Int.fract_neg_eq_zero.mpr h, mul_zero]
  · rw [if_neg (fun hc => h (hiff.mp hc)), Int.fract_neg h]
    ring

/-- Folding of an angle in `[0, 360)` onto the minimal separation in
`[0, 180]`, exactly as the source writes it:
`if diff > 180: diff = 360 - diff`. -/
def foldAngle (m : ℚ) : ℚ := if m > 180 then 360 - m else m

theorem foldAngle_eq_min {m : ℚ} (h0 : 0 ≤ m) (h1 : m < 360) :
    foldAngle m = min m (360 - m) := by
  unfold foldAngle
  rcases le_or_lt m 180 with h | h
  · rw [if_neg (by linarith), min_eq_left (by linarith)]
  · rw [if_pos h, min_eq_right (by linarith)]

/-- Separation used everywhere in the source: absolute difference, reduced
mod 360 and folded onto `[0, 180]`. -/
def angularSep (pos1 pos2 : ℚ) : ℚ := foldAngle (fmod |pos1 - pos2| 360)

theorem angularSep_nonneg (p1 p2 : ℚ) : 0 ≤ angularSep p1 p2 := by
  unfold angularSep foldAngle
  have h0 := fmod_nonneg |p1 - p2| (b := 360) (by norm_num)
  have h1 := fmod_lt |p1 - p2| (b := 360) (by norm_num)
  split <;> linarith

theorem angularSep_le (p1 p2 : ℚ) : angularSep p1 p2 ≤ 180 := by
  unfold angularSep foldAngle
  have h0 := fmod_nonneg |p1 - p2| (b := 360) (by norm_num)
  have h1 := fmod_lt |p1 - p2| (b := 360) (by norm_num)
  split <;> linarith

theorem foldAngle_fmod_abs (a : ℚ) :
    foldAngle (fmod |a| 360) = foldAngle (fmod a 360) := by
  rcases abs_choice a with h | h
  · rw [h]
  · rw [h]
    rw [fmod_neg_eq a (b := 360) (by norm_num)]
    have h0 := fmod_nonneg a (b := 360) (by norm_num)
    have h1 := fmod_lt a (b := 360) (by norm_num)
    rcases eq_or_ne (fmod a 360) 0 with hz | hz
    · rw [if_pos hz, hz]
    · rw [if_neg hz]
      unfold foldAngle
      rcases lt_trichotomy (fmod a 360) 180 with hlt | heq | hgt
      · rw [if_pos (by linarith), if_neg (by linarith)]; ring
      · rw [heq]; norm_num
      · rw [if_neg (by linarith), if_pos hgt]

theorem angularSep_shift (p1 p2 : ℚ) (k : ℤ) :
    angularSep (p1 + 360 * k) p2 = angularSep p1 p2 := by
  unfold angularSep
  rw [foldAngle_fmod_abs, foldAngle_fmod_abs (p1 - p2)]
  have h : p1 + 360 * k - p2 = (p1 - p2) + 360 * k := by ring
  rw [h, fmod_add_int_mul (p1 - p2) (by norm_num) k]

theorem angularSep_comm (p1 p2 : ℚ) : angularSep p1 p2 = angularSep p2 p1 := by
  unfold angularSep
  rw [abs_sub_comm]

/-- Zodiac sign codes in order, from the module-level constant table. -/
def ZODIAC_SIGNS : List String :=
  ["Ari", "Tau", "Gem", "Can", "Leo", "Vir",
   "Lib", "Sco", "Sag", "Cap", "Aqu", "Pis"]

/-- Opposite-sign table, from the module-level constant table. -/
def OPPOSITE_SIGNS : List (String × String) :=
  [("Ari", "Lib"), ("Tau", "Sco"), ("Gem", "Sag"), ("Can", "Cap"),
   ("Leo", "Aqu"), ("Vir", "Pis"), ("Lib", "Ari"), ("Sco", "Tau"),
   ("Sag", "Gem"), ("Cap", "Can"), ("Aqu", "Leo"), ("Pis", "Vir")]

/-- Element table, from the module-level constant table. -/
def ELEMENT_MAP : List (String × String) :=
  [("Ari", "Fire"), ("Tau", "Earth"), ("Gem", "Air"), ("Can", "Water"),
   ("Leo", "Fire"), ("Vir", "Earth"), ("Lib", "Air"), ("Sco", "Water"),
   ("Sag", "Fire"), ("Cap", "Earth"), ("Aqu", "Air"), ("Pis", "Water")]

/-- Sun modality table, from the module-level constant table. -/
def SUN_QUALITY : List (String × String) :=
  [("Ari", "Cardinal"), ("Tau", "Fixed"), ("Gem", "Mutable"),
   ("Can", "Cardinal"), ("Leo", "Fixed"), ("Vir", "Mutable"),
   ("Lib", "Cardinal"), ("Sco", "Fixed"), ("Sag", "Mutable"),
   ("Cap", "Cardinal"), ("Aqu", "Fixed"), ("Pis", "Mutable")]

/-- Compatible-element table (Fire-Air, Earth-Water), from the module-level
constant table. -/
def COMPATIBLE_ELEMENTS : List (String × List String) :=
  [("Fire", ["Fire", "Air"]), ("Earth", ["Earth", "Water"]),
   ("Air", ["Air", "Fire"]), ("Water", ["Water", "Earth"])]

/-- Moon affinity table (same sign first, then opposite, then trines), from
the module-level constant table. -/
def MOON_AFFINITIES : List (String × List String) :=
  [("Ari", ["Ari", "Lib", "Leo", "Sag"]), ("Tau", ["Tau", "Sco", "Vir", "Cap"]),
   ("Gem", ["Gem", "Sag", "Lib", "Aqu"]), ("Can", ["Can", "Cap", "Sco", "Pis"]),
   ("Leo", ["Leo", "Aqu", "Ari", "Sag"]), ("Vir", ["Vir", "Pis", "Tau", "Cap"]),
   ("Lib", ["Lib", "Ari", "Gem", "Aqu"]), ("Sco", ["Sco", "Tau", "Can", "Pis"]),
   ("Sag", ["Sag", "Gem", "Ari", "Leo"]), ("Cap", ["Cap", "Can", "Tau", "Vir"]),
   ("Aqu", ["Aqu", "Leo", "Gem", "Lib"]), ("Pis", ["Pis", "Vir", "Can", "Sco"])]

/-- Python `dict.get(key, default)` over an association-list model of a
string-keyed dict. -/
def dictGetD {α : Type} (d : List (String × α)) (k : String) (default : α) : α :=
  match d.find? (fun p => p.1 == k) with
  | some p => p.2
  | none => default

/-- Maximum compatibility score constant from the source
(`MAX_COMPATIBILITY_SCORE = 56`). -/
def MAX_COMPATIBILITY_SCORE : ℤ := 56

/-- Scoring constant `RELATIONSHIP_SCORE_BASE = 30` from the source. -/
def RELATIONSHIP_SCORE_BASE : ℤ := 30

/-- Scoring constant `NORTH_NODE_BONUS_MAX = 8` from the source. -/
def NORTH_NODE_BONUS_MAX : ℤ := 8

/-- Kernel-friendly integer square root by binary recursion (the fuel is
only consumed along divisions by 4, so evaluation takes logarithmic
depth). -/
def isqrtAux : ℕ → ℕ → ℕ
  | 0, _ => 0
  | fuel+1, n =>
    if n = 0 then 0 else
    let r := isqrtAux fuel (n / 4)
    if (2*r+1) * (2*r+1) ≤ n then 2*r+1 else 2*r

/-- Kernel-friendly integer square root; agrees with `Nat.sqrt`. -/
def isqrt (n : ℕ) : ℕ := isqrtAux n n

theorem isqrtAux_eq_sqrt : ∀ (fuel n : ℕ), n ≤ fuel → isqrtAux fuel n = Nat.sqrt n := by
  intro fuel
  induction fuel with
  | zero =>
    intro n hn
    interval_cases n
    rfl
  | succ fuel ih =>
    intro n hn
    unfold isqrtAux
    rcases eq_or_ne n 0 with rfl | hne
    · simp
    · rw [if_neg hne]
      have hdiv : n / 4 ≤ fuel := by omega
      rw [ih (n / 4) hdiv]
      show (if (2 * Nat.sqrt (n/4) + 1) * (2 * Nat.sqrt (n/4) + 1) ≤ n
        then 2 * Nat.sqrt (n/4) + 1 else 2 * Nat.sqrt (n/4)) = Nat.sqrt n
      set r := Nat.sqrt (n / 4) with hr
      have hlow : (2*r) * (2*r) ≤ n := by
        have h1 : r * r ≤ n / 4 := Nat.sqrt_le (n / 4)
        have h2 : 4 * (n / 4) ≤ n := by omega
        calc (2*r) * (2*r) = 4 * (r * r) := by ring
          _ ≤ 4 * (n / 4) := by omega
          _ ≤ n := h2
      have hhigh : n < (2*r+2) * (2*r+2) := by
        have h1 : n / 4 + 1 ≤ (r+1) * (r+1) := Nat.lt_succ_sqrt (n / 4)
        have h5 : n < 4 * (n / 4) + 4 := by omega
        nlinarith [h1, h5]
      split_ifs with hmid
      · rw [Nat.eq_sqrt]
        exact ⟨hmid, by nlinarith⟩
      · rw [Nat.eq_sqrt]
        exact ⟨hlow, by omega⟩

theorem isqrt_eq_sqrt (n : ℕ) : isqrt n = Nat.sqrt n :=
  isqrtAux_eq_sqrt n n le_rfl

/-- Embedding of `score_to_compatibility_percent`.  The Python expression
`min(100, round(math.sqrt(score / base) * 100))` with `base = 38` is
evaluated exactly over the rationals/reals: for a positive score,
`round(sqrt(score/38) * 100) = (Nat.sqrt (380000*score) + 19) / 38` (see
`round_sqrt_div_38` and `to_percent_eq_real`; the rounded quantity is
never an exact half-integer, so Python round-half-to-even agrees with
`round`). -/
def score_to_compatibility_percent (score : ℤ) : ℤ :=
  if score ≤ 0 then 0
  else min 100 (((isqrt (380000 * score.toNat) + 19) / 38 : ℕ) : ℤ)

/-- Reference form of `score_to_compatibility_percent` written with the real
square root and rounding, exactly as the source line
`min(100, round(math.sqrt(score / base) * 100))` reads. -/
noncomputable def to_percent_real (score : ℤ) : ℤ :=
  if score ≤ 0 then 0
  else
    min 100 (round (Real.sqrt ((score : ℝ) /
      ((RELATIONSHIP_SCORE_BASE + NORTH_NODE_BONUS_MAX : ℤ) : ℝ)) * 100))

/-- Embedding of `calculate_age_range`: the soulmate age window by gender
combination.  Gender strings are optional, as in the source. -/
def calculate_age_range (user_age : ℤ) (user_gender soulmate_sex : Option String) :
    ℤ × ℤ :=
  if user_age < 18 then (18, 26)
  else if user_gender = some "male" ∧ soulmate_sex = some "female" then
    let min_age := max 18 (user_age / 2 + 7)
    (min_age, min_age + 8)
  else if user_gender = some "female" ∧ soulmate_sex = some "male" then
    (max 18 user_age, user_age + 8)
  else
    (max 18 (user_age - 4), user_age + 4)

/-- Embedding of `score_north_node_contacts`: +4 for Sun, +4 for Moon, +3 for
Venus conjunct (same sign as) the user North Node, capped at 8. -/
def score_north_node_contacts
    (user_north_node_sign soulmate_sun_sign soulmate_moon_sign
      soulmate_venus_sign : String) : ℤ :=
  let score : ℤ := 0
  let score := if soulmate_sun_sign = user_north_node_sign then score + 4 else score
  let score := if soulmate_moon_sign = user_north_node_sign then score + 4 else score
  let score := if soulmate_venus_sign = user_north_node_sign then score + 3 else score
  min score 8

/-- Embedding of `score_moon_compatibility`: 3 for the same sign, 2 for an
affinity sign (opposite or trine, the tail of the affinity list), else 0. -/
def score_moon_compatibility (user_moon soulmate_moon : String) : ℤ :=
  let affinities := dictGetD MOON_AFFINITIES user_moon []
  if soulmate_moon = user_moon then 3
  else if soulmate_moon ∈ affinities.drop 1 then 2
  else 0

/-- Embedding of `calculate_aspect_score`: classifies the angular relation of
two absolute positions and scores it.  The kind is `some name` or `none`,
mirroring the Python `str | None`. -/
def calculate_aspect_score (pos1 pos2 : ℚ) : ℤ × Option String × ℚ :=
  let diff := fmod |pos1 - pos2| 360
  let diff := if diff > 180 then 360 - diff else diff
  if diff ≤ 8 then
    ((if diff ≤ 2 then 11 else 10), some "conjunction", diff)
  else if 54 ≤ diff ∧ diff ≤ 66 then (6, some "sextile", |diff - 60|)
  else if 82 ≤ diff ∧ diff ≤ 98 then (0, some "square", |diff - 90|)
  else if 112 ≤ diff ∧ diff ≤ 128 then (8, some "trine", |diff - 120|)
  else if 172 ≤ diff ∧ diff ≤ 188 then (4, some "opposition", |diff - 180|)
  else (0, none, diff)

/-- Aspect table indexed by the already-reduced separation; definitionally
equal to the tail of `calculate_aspect_score` after its two reduction
lines. -/
def aspectFromDiff (diff : ℚ) : ℤ × Option String × ℚ :=
  if diff ≤ 8 then
    ((if diff ≤ 2 then 11 else 10), some "conjunction", diff)
  else if 54 ≤ diff ∧ diff ≤ 66 then (6, some "sextile", |diff - 60|)
  else if 82 ≤ diff ∧ diff ≤ 98 then (0, some "square", |diff - 90|)
  else if 112 ≤ diff ∧ diff ≤ 128 then (8, some "trine", |diff - 120|)
  else if 172 ≤ diff ∧ diff ≤ 188 then (4, some "opposition", |diff - 180|)
  else (0, none, diff)

theorem calculate_aspect_score_eq_fromDiff (p1 p2 : ℚ) :
    calculate_aspect_score p1 p2 = aspectFromDiff (angularSep p1 p2) := rfl

/-- Restatement of the aspect table as the specification writes it, with the
minimal separation expressed as
`min (|pos1-pos2| mod 360) (360 - (|pos1-pos2| mod 360))`. -/
def aspect_score_spec (pos1 pos2 : ℚ) : ℤ × Option String × ℚ :=
  let m := fmod |pos1 - pos2| 360
  let diff := min m (360 - m)
  if diff ≤ 8 then
    ((if diff ≤ 2 then 11 else 10), some "conjunction", diff)
  else if 54 ≤ diff ∧ diff ≤ 66 then (6, some "sextile", |diff - 60|)
  else if 82 ≤ diff ∧ diff ≤ 98 then (0, some "square", |diff - 90|)
  else if 112 ≤ diff ∧ diff ≤ 128 then (8, some "trine", |diff - 120|)
  else if 172 ≤ diff ∧ diff ≤ 188 then (4, some "opposition", |diff - 180|)
  else (0, none, diff)

/-- Position record for one body or point of a chart: the `sign` and
`abs_pos` entries of the per-body dicts stored in `NatalChart.planets` and
`NatalChart.points` (other entries of those dicts are never read by the
soulmate service). -/
structure PointInfo where
  sign : Option String
  abs_pos : Option ℚ
deriving DecidableEq

/-- Embedding of the `NatalChart` domain model restricted to the fields the
soulmate service reads: the `planets` and `points` dicts and the opaque
`provider_data` handle (modelled as an integer id consumed by the external
relationship evaluator; `None` when absent).  The pass-through fields
`birth_data`, `houses` and `aspects` are omitted. -/
structure NatalChart where
  planets : List (String × PointInfo)
  points : List (String × PointInfo)
  provider_data : Option ℤ
deriving DecidableEq

/-- Embedding of the `BirthData` domain model.  The pydantic range
validation belongs to the excluded HTTP layer and is not modelled. -/
structure BirthData where
  year : ℤ
  month : ℤ
  day : ℤ
  hour : ℤ
  minute : ℤ
  latitude : ℚ
  longitude : ℚ
  timezone : String
deriving DecidableEq

/-- Daily ephemeris snapshot as consumed by the pre-filter: the date and the
`sign`/`abs_pos` of Sun and Moon of one provider subject. -/
structure EphemerisPoint where
  year : ℤ
  month : ℤ
  day : ℤ
  sun_sign : String
  sun_abs_pos : ℚ
  moon_sign : String
  moon_abs_pos : ℚ
deriving DecidableEq

/-- The empty per-body dict. -/
def emptyPoint : PointInfo := ⟨none, none⟩

/-- Embedding of `_get_planet_sign`:
`chart.planets.get(key, {}).get("sign", "Ari")`. -/
def getPlanetSign (c : NatalChart) (k : String) : String :=
  (dictGetD c.planets k emptyPoint).sign.getD "Ari"

/-- Embedding of `_get_ascendant_sign`:
`chart.points.get("ascendant", {}).get("sign", "Ari")`. -/
def getAscendantSign (c : NatalChart) : String :=
  (dictGetD c.points "ascendant" emptyPoint).sign.getD "Ari"

/-- Lookup of `chart.planets.get(key, {}).get("abs_pos", 0.0)`. -/
def getPlanetPos (c : NatalChart) (k : String) : ℚ :=
  (dictGetD c.planets k emptyPoint).abs_pos.getD 0

/-- Lookup of `chart.points.get(key, {}).get("abs_pos", 0.0)`. -/
def getPointPos (c : NatalChart) (k : String) : ℚ :=
  (dictGetD c.points k emptyPoint).abs_pos.getD 0

/-- Lookup of `chart.points.get(key, {}).get("sign", default)`. -/
def getPointSignD (c : NatalChart) (k : String) (dflt : String) : String :=
  (dictGetD c.points k emptyPoint).sign.getD dflt

/-- Embedding of `_get_user_north_node`: read `true_node` from the planets
dict, falling back to the points dict when the entry is missing or empty
(Python truthiness of the defaulted `{}`), with default sign "Leo". -/
def getUserNorthNode (c : NatalChart) : String :=
  let nn := dictGetD c.planets "true_node" emptyPoint
  let nn := if nn = emptyPoint then dictGetD c.points "true_node" emptyPoint else nn
  nn.sign.getD "Leo"

/-- The external astrology provider boundary: fallible chart calculation,
the fallible external relationship evaluator (`RelationshipScoreFactory`,
invoked on the two charts' opaque `provider_data` handles and returning
`score_value`), and bulk ephemeris generation for a birth-year range
(`generate_ephemeris_for_range` called with Jan 1 of the start year and
Dec 31 of the end year; the repository only declares this method, its body
lives outside `src`, so it stays an abstract input here, matching the
spec's external-capability contract). -/
structure Provider where
  calcChart : BirthData → Except Unit NatalChart
  relationshipScore : ℤ → ℤ → Except Unit ℤ
  ephemeris : ℤ → ℤ → List EphemerisPoint

/-- Index of a sign in `ZODIAC_SIGNS`, with the source fallback
`if target_rising_sign in ZODIAC_SIGNS else 6`. -/
def signIndex (s : String) : ℕ :=
  if s ∈ ZODIAC_SIGNS then ZODIAC_SIGNS.indexOf s else 6

/-- Center degree of a sign: `sign_idx * 30 + 15`. -/
def targetCenter (t : String) : ℚ := (signIndex t : ℚ) * 30 + 15

/-- The midnight reference instant used by the fast Ascendant solver. -/
def midnightBirth (year month day : ℤ) (lat lon : ℚ) (tz : String) : BirthData :=
  ⟨year, month, day, 0, 0, lat, lon, tz⟩

/-- The linear time estimate of the fast Ascendant solver: rotate from the
midnight Ascendant to the target center at 1° per 4 minutes, wrapped into
a 24-hour day. -/
def estimateFromMidnightAsc (t : String) (midnight_asc : ℚ) : ℤ × ℤ :=
  let degrees_to_rotate := fmod (targetCenter t - midnight_asc) 360
  let minutes_from_midnight := pyTrunc (degrees_to_rotate * 4)
  ((minutes_from_midnight / 60) % 24, minutes_from_midnight % 60)

/-- Wrap of an error angle from `[0, 360)` to `(-180, 180]`:
`if error_degrees > 180: error_degrees -= 360`. -/
def wrapSignedError (e : ℚ) : ℚ := if e > 180 then e - 360 else e

/-- The corrected time of the fast Ascendant solver: apply the wrapped
signed error at 4 minutes per degree to the estimate, wrapped into a
24-hour day. -/
def correctedEstimate (t : String) (est : ℤ × ℤ) (actual_asc : ℚ) : ℤ × ℤ :=
  let err := wrapSignedError (fmod (targetCenter t - actual_asc) 360)
  let correction_minutes := pyTrunc (err * 4)
  let refined_total := (est.1 * 60 + est.2 + correction_minutes) % 1440
  (refined_total / 60, refined_total % 60)

/-- Embedding of `_find_hour_for_ascendant_fast`: one midnight reference
chart (failure ⇒ noon default), the linear estimate, one verification
chart (failure ⇒ unverified estimate), and a single correction pass when
the verified Ascendant sign misses the target. -/
def find_hour_for_ascendant_fast (P : Provider) (year month day : ℤ)
    (target_rising_sign : String) (latitude longitude : ℚ)
    (timezone : String) : ℤ × ℤ :=
  let target_center := targetCenter target_rising_sign
  match P.calcChart ⟨year, month, day, 0, 0, latitude, longitude, timezone⟩ with
  | .error _ => (12, 0)
  | .ok midnight_chart =>
    let midnight_asc := getPointPos midnight_chart "ascendant"
    let degrees_to_rotate := fmod (target_center - midnight_asc) 360
    let minutes_from_midnight := pyTrunc (degrees_to_rotate * 4)
    let est_hour := (minutes_from_midnight / 60) % 24
    let est_minute := minutes_from_midnight % 60
    match P.calcChart ⟨year, month, day, est_hour, est_minute, latitude,
        longitude, timezone⟩ with
    | .error _ => (est_hour, est_minute)
    | .ok chart =>
      if getPointSignD chart "ascendant" "" = target_rising_sign then
        (est_hour, est_minute)
      else
        let actual_asc := getPointPos chart "ascendant"
        let error_degrees := fmod (target_center - actual_asc) 360
        let error_degrees := if error_degrees > 180 then error_degrees - 360
          else error_degrees
        let correction_minutes := pyTrunc (error_degrees * 4)
        let refined_total := (est_hour * 60 + est_minute + correction_minutes) % 1440
        (refined_total / 60, refined_total % 60)

/-- Embedding of `_fallback_relationship_score`: sign-based element
compatibility used when the external evaluator is unavailable. -/
def fallback_relationship_score (user_chart soulmate_chart : NatalChart) : ℤ :=
  let user_sun := getPlanetSign user_chart "sun"
  let user_moon := getPlanetSign user_chart "moon"
  let soulmate_sun := getPlanetSign soulmate_chart "sun"
  let soulmate_moon := getPlanetSign soulmate_chart "moon"
  let soulmate_venus := getPlanetSign soulmate_chart "venus"
  let soulmate_mars := getPlanetSign soulmate_chart "mars"
  let user_sun_element := dictGetD ELEMENT_MAP user_sun "Fire"
  let soulmate_sun_element := dictGetD ELEMENT_MAP soulmate_sun "Fire"
  let score : ℤ :=
    if soulmate_sun_element ∈ dictGetD COMPATIBLE_ELEMENTS user_sun_element []
    then 5 else 0
  let score := score + score_moon_compatibility user_moon soulmate_moon
  let user_venus := getPlanetSign user_chart "venus"
  let user_mars := getPlanetSign user_chart "mars"
  let user_mars_element := dictGetD ELEMENT_MAP user_mars "Fire"
  let soulmate_venus_element := dictGetD ELEMENT_MAP soulmate_venus "Fire"
  let score :=
    if soulmate_venus_element ∈ dictGetD COMPATIBLE_ELEMENTS user_mars_element []
    then score + 3 else score
  let user_venus_element := dictGetD ELEMENT_MAP user_venus "Fire"
  let soulmate_mars_element := dictGetD ELEMENT_MAP soulmate_mars "Fire"
  let score :=
    if soulmate_mars_element ∈ dictGetD COMPATIBLE_ELEMENTS user_venus_element []
    then score + 2 else score
  score

/-- The base relationship score before capping: the external evaluator
applied to both `provider_data` handles when present (falling back to the
heuristic on failure or on a missing handle). -/
def relationshipBase (ev : ℤ → ℤ → Except Unit ℤ)
    (user_chart soulmate_chart : NatalChart) : ℤ :=
  match user_chart.provider_data, soulmate_chart.provider_data with
  | some u, some s =>
    match ev u s with
    | .ok v => v
    | .error _ => fallback_relationship_score user_chart soulmate_chart
  | _, _ => fallback_relationship_score user_chart soulmate_chart

/-- The North-Node bonus of a chart pair, as `_calculate_relationship_score`
assembles it. -/
def northNodeBonusOf (user_chart soulmate_chart : NatalChart) : ℤ :=
  score_north_node_contacts (getUserNorthNode user_chart)
    (getPlanetSign soulmate_chart "sun")
    (getPlanetSign soulmate_chart "moon")
    (getPlanetSign soulmate_chart "venus")

/-- Embedding of `_calculate_relationship_score`: evaluator (or fallback)
base capped at 48, plus the North-Node bonus, total capped at
`MAX_COMPATIBILITY_SCORE`. -/
def calculate_relationship_score (ev : ℤ → ℤ → Except Unit ℤ)
    (user_chart soulmate_chart : NatalChart) : ℤ :=
  let base_score := relationshipBase ev user_chart soulmate_chart
  let base_score := min base_score 48
  let north_node_bonus := northNodeBonusOf user_chart soulmate_chart
  min (base_score + north_node_bonus) MAX_COMPATIBILITY_SCORE

/-- Pre-filter score of one ephemeris point (`conjunction_score` of the
source loop): `20 - diff` for each of the two Sun–Moon cross separations
when within 10°, plus a flat +5 when the point's Sun modality matches the
user's (the source recomputes the user quality inside the loop from the
user chart's Sun sign; the Sun sign is passed here). -/
def prefilterScore (user_sun_pos user_moon_pos : ℚ) (user_sun_sign : String)
    (p : EphemerisPoint) : ℚ :=
  let sun_moon_diff := angularSep p.sun_abs_pos user_moon_pos
  let moon_sun_diff := angularSep p.moon_abs_pos user_sun_pos
  let score : ℚ := 0
  let score := if sun_moon_diff ≤ 10 then score + (20 - sun_moon_diff) else score
  let score := if moon_sun_diff ≤ 10 then score + (20 - moon_sun_diff) else score
  let user_sun_quality := dictGetD SUN_QUALITY user_sun_sign "Fixed"
  let point_sun_quality := dictGetD SUN_QUALITY p.sun_sign "Fixed"
  if point_sun_quality = user_sun_quality then score + 5 else score

/-- Top-up walk over the indexed ephemeris (`for point in ephemeris_points`)
appending score-0 entries for points whose identity (index) is not already
in the pool, breaking once the pool reaches 100.  Python object identity
(`id(point)`) is modelled by the index in the input sequence. -/
def topUpAux : List (ℕ × EphemerisPoint) → List (ℚ × ℕ × EphemerisPoint) →
    List ℕ → List (ℚ × ℕ × EphemerisPoint)
  | [], acc, _ => acc
  | (i, p) :: rest, acc, ids =>
    if i ∈ ids then topUpAux rest acc ids
    else
      let acc2 := acc ++ [(0, i, p)]
      if acc2.length ≥ 100 then acc2 else topUpAux rest acc2 ids

/-- Stable insertion of an entry into a list kept descending by score: the
entry goes before the first element whose score is not larger, so earlier
entries win ties, matching Python's stable `sort(key=lambda x: -x[0])`. -/
def insertDesc (x : ℚ × ℕ × EphemerisPoint) :
    List (ℚ × ℕ × EphemerisPoint) → List (ℚ × ℕ × EphemerisPoint)
  | [] => [x]
  | y :: ys => if x.1 < y.1 then y :: insertDesc x ys else x :: y :: ys

/-- Stable sort descending by score (insertion sort, structurally recursive
so that concrete pools evaluate inside the kernel). -/
def sortDesc (l : List (ℚ × ℕ × EphemerisPoint)) :
    List (ℚ × ℕ × EphemerisPoint) :=
  l.foldr insertDesc []

/-- The candidate-pool construction of `_find_best_birth_date`: score every
point, keep the positive ones sorted descending by score (stable, as
Python's `sort(key=lambda x: -x[0])`), take the top 100, and if fewer than
50 qualified, top up with score-0 points from the full sequence. -/
def prefilterCandidates (user_sun_pos user_moon_pos : ℚ) (user_sun_sign : String)
    (pts : List EphemerisPoint) : List (ℚ × ℕ × EphemerisPoint) :=
  let ipts := pts.enum
  let candidates := ipts.filterMap (fun ip =>
    let s := prefilterScore user_sun_pos user_moon_pos user_sun_sign ip.2
    if s > 0 then some (s, ip.1, ip.2) else none)
  let sorted := sortDesc candidates
  let top := sorted.take 100
  if top.length < 50 then topUpAux ipts top (top.map (fun c => c.2.1)) else top

/-- Birth data of a search candidate: the ephemeris point's date with the
time solved for the target Ascendant, at the user's location. -/
def candidateBirthData (P : Provider) (user_birth_data : BirthData)
    (target_rising : String) (p : EphemerisPoint) : BirthData :=
  let tt := find_hour_for_ascendant_fast P p.year p.month p.day target_rising
    user_birth_data.latitude user_birth_data.longitude user_birth_data.timezone
  ⟨p.year, p.month, p.day, tt.1, tt.2, user_birth_data.latitude,
    user_birth_data.longitude, user_birth_data.timezone⟩

/-- The scoring loop of `_find_best_birth_date` over the candidate pool:
build each candidate's chart (a chart-calculation failure propagates — the
loop body has no handler), score it, track the best, and break early at a
score of at least 38. -/
def scoreLoop (P : Provider) (user_chart : NatalChart)
    (user_birth_data : BirthData) (target_rising : String) :
    List (ℚ × ℕ × EphemerisPoint) → Option (BirthData × NatalChart) → ℤ →
    Except Unit (Option (BirthData × NatalChart) × ℤ)
  | [], best, best_score => .ok (best, best_score)
  | (_, _, p) :: rest, best, best_score =>
    let birth_data := candidateBirthData P user_birth_data target_rising p
    match P.calcChart birth_data with
    | .error e => .error e
    | .ok soulmate_chart =>
      let score := calculate_relationship_score P.relationshipScore user_chart
        soulmate_chart
      let best2 := if score > best_score then some (birth_data, soulmate_chart)
        else best
      let best_score2 := if score > best_score then score else best_score
      if score ≥ 38 then .ok (best2, best_score2)
      else scoreLoop P user_chart user_birth_data target_rising rest best2 best_score2

/-- The birth-year window of the search:
`(current_year - max_age, current_year - min_age)`. -/
def birthYearRange (current_year : ℤ) (user_birth_data : BirthData)
    (g s : Option String) : ℤ × ℤ :=
  let user_age := current_year - user_birth_data.year
  let ages := calculate_age_range user_age g s
  (current_year - ages.2, current_year - ages.1)

/-- The fixed fallback candidate used when the pool produced no best
candidate: the midpoint birth year, June 15, time solved for the target
Ascendant. -/
def fallbackBirthData (P : Provider) (user_birth_data : BirthData)
    (target_rising : String) (fallback_year : ℤ) : BirthData :=
  let tt := find_hour_for_ascendant_fast P fallback_year 6 15 target_rising
    user_birth_data.latitude user_birth_data.longitude user_birth_data.timezone
  ⟨fallback_year, 6, 15, tt.1, tt.2, user_birth_data.latitude,
    user_birth_data.longitude, user_birth_data.timezone⟩

/-- Embedding of `_find_best_birth_date`.  `current_year` stands for
`datetime.now().year`; the `isinstance(provider, KerykeionProvider)` branch
is modelled by the provider's `ephemeris` capability (the non-Kerykeion
branch would amount to an empty ephemeris). -/
def find_best_birth_date (P : Provider) (current_year : ℤ)
    (user_chart : NatalChart) (user_birth_data : BirthData)
    (target_rising : String) (g s : Option String) :
    Except Unit (BirthData × NatalChart × ℤ) :=
  let years := birthYearRange current_year user_birth_data g s
  let user_sun_pos := getPlanetPos user_chart "sun"
  let user_moon_pos := getPlanetPos user_chart "moon"
  let ephemeris_points := P.ephemeris years.1 years.2
  let user_sun_sign := getPlanetSign user_chart "sun"
  let top_candidates := prefilterCandidates user_sun_pos user_moon_pos
    user_sun_sign ephemeris_points
  match scoreLoop P user_chart user_birth_data target_rising top_candidates
      none (-1) with
  | .error e => .error e
  | .ok (some (bd, ch), sc) => .ok (bd, ch, sc)
  | .ok (none, _) =>
    let fallback_year := (years.1 + years.2) / 2
    let best_birth_data := fallbackBirthData P user_birth_data target_rising
      fallback_year
    match P.calcChart best_birth_data with
    | .error e => .error e
    | .ok best_chart =>
      .ok (best_birth_data, best_chart,
        calculate_relationship_score P.relationshipScore user_chart best_chart)

/-- Embedding of `SoulmateChartResponse` restricted to the fields the
service computes from modelled data (`houses` and `aspects` are
pass-through copies of unmodelled chart fields and are omitted). -/
structure SoulmateChartResponse where
  planets : List (String × PointInfo)
  points : List (String × PointInfo)
  compatibility_percent : ℤ
  user_venus_sign : String
  user_mars_sign : String
  user_rising_sign : String
  soulmate_birth_year : ℤ
deriving DecidableEq

/-- Embedding of `_build_response`: drop the `birth_data` key from the
planets dict (every remaining value in this model is a dict) and convert
the score to a percentage. -/
def build_response (soulmate_chart : NatalChart) (compatibility_score : ℤ)
    (user_venus_sign user_mars_sign user_rising_sign : String)
    (soulmate_birth_year : ℤ) : SoulmateChartResponse :=
  let planets := soulmate_chart.planets.filter (fun kv => kv.1 != "birth_data")
  ⟨planets, soulmate_chart.points,
    score_to_compatibility_percent compatibility_score,
    user_venus_sign, user_mars_sign, user_rising_sign, soulmate_birth_year⟩

/-- Embedding of `generate_soulmate_chart`: compute the user chart (the one
unguarded external call outside the search), derive the target rising sign
as the zodiacal opposite with default "Lib", run the search, and build the
response. -/
def generate_soulmate_chart (P : Provider) (current_year : ℤ)
    (user_birth_data : BirthData) (user_gender soulmate_sex : Option String) :
    Except Unit SoulmateChartResponse :=
  match P.calcChart user_birth_data with
  | .error e => .error e
  | .ok user_chart =>
    let user_rising_sign := getAscendantSign user_chart
    let user_venus_sign := getPlanetSign user_chart "venus"
    let user_mars_sign := getPlanetSign user_chart "mars"
    let target_rising := dictGetD OPPOSITE_SIGNS user_rising_sign "Lib"
    match find_best_birth_date P current_year user_chart user_birth_data
        target_rising user_gender soulmate_sex with
    | .error e => .error e
    | .ok out =>
      .ok (build_response out.2.1 out.2.2 user_venus_sign user_mars_sign
        user_rising_sign out.1.year)

/-- Discriminator for `Except` results. -/
def exceptIsError {ε α : Type} : Except ε α → Bool
  | .error _ => true
  | .ok _ => false

deriving instance DecidableEq for Except

/-- A provider whose chart calculation always fails. -/
def failProvider : Provider :=
  ⟨fun _ => .error (), fun _ _ => .error (), fun _ _ => []⟩

/-- External evaluator returning its documented maximum base score 48. -/
def evalMax48 : ℤ → ℤ → Except Unit ℤ := fun _ _ => .ok 48

/-- User chart whose North Node sign is Leo, with a provider handle. -/
def userChartLeoNode : NatalChart :=
  ⟨[("true_node", ⟨some "Leo", none⟩)], [], some 0⟩

/-- Candidate chart whose Sun, Moon and Venus are all in Leo, with a
provider handle. -/
def mateChartTripleLeo : NatalChart :=
  ⟨[("sun", ⟨some "Leo", none⟩), ("moon", ⟨some "Leo", none⟩),
    ("venus", ⟨some "Leo", none⟩)], [], some 1⟩

/-- The specification's separation formula
`min (|a-b| mod 360) (360 - (|a-b| mod 360))`. -/
def specMinSep (a b : ℚ) : ℚ :=
  min (fmod |a - b| 360) (360 - fmod |a - b| 360)

/-- Ephemeris point at a perfect Sun–Moon cross-conjunction with a user
whose Sun is at 0° and Moon at 100° (candidate Sun on the user Moon,
candidate Moon on the user Sun); its Sun sign Ari is Cardinal. -/
def perfectPoint : EphemerisPoint := ⟨1990, 3, 1, "Ari", 100, "Gem", 0⟩

/-- Ephemeris point one degree off the perfect cross-conjunction for the
same user, whose Sun sign Tau shares the user's Fixed modality. -/
def nearPoint : EphemerisPoint := ⟨1991, 4, 2, "Tau", 101, "Gem", 0⟩

/-- Ephemeris point unrelated to the same user: both cross separations are
far above 10°. -/
def farPoint : EphemerisPoint := ⟨1992, 5, 3, "Tau", 200, "Gem", 250⟩

/-- Target rising sign derived from a user chart: the zodiacal opposite of
the user's Ascendant sign, defaulting to Libra. -/
def targetRisingOf (user_chart : NatalChart) : String :=
  dictGetD OPPOSITE_SIGNS (getAscendantSign user_chart) "Lib"

/-- The fallback birth year: midpoint of the birth-year window. -/
def fallbackYearOf (current_year : ℤ) (user_birth_data : BirthData)
    (g s : Option String) : ℤ :=
  ((birthYearRange current_year user_birth_data g s).1 +
    (birthYearRange current_year user_birth_data g s).2) / 2

/-- Chart with only an Ascendant at absolute position 0 in Ari. -/
def chartAsc0 : NatalChart := ⟨[], [("ascendant", ⟨some "Ari", some 0⟩)], none⟩

/-- A midnight user birth instant. -/
def midnightUserBirth : BirthData := ⟨1990, 6, 15, 0, 0, 0, 0, "Europe/London"⟩

/-- One ephemeris point in perfect cross-conjunction with `chartAsc0`'s
defaulted Sun/Moon positions. -/
def onePoint : EphemerisPoint := ⟨2000, 1, 1, "Ari", 0, "Gem", 0⟩

/-- Provider whose chart calculation succeeds exactly at midnight instants
(hour 0, minute 0): the user chart and the solver's midnight reference
succeed, while the solver's verification chart and every candidate chart
(solved to a non-midnight time) fail. -/
def midnightOnlyProvider : Provider :=
  ⟨fun b => if b.hour = 0 ∧ b.minute = 0 then .ok chartAsc0 else .error (),
   fun _ _ => .ok 0,
   fun _ _ => [onePoint]⟩

unseal Rat.add Rat.sub Rat.mul Rat.inv

/-- C5: for all rational degree inputs, `calculate_aspect_score` agrees with
the specification table built on
`diff = min (|pos1-pos2| mod 360) (360 - (|pos1-pos2| mod 360))` with
first-match priority (conjunction 11/10 within 8°, sextile 6 in 54–66,
square 0 in 82–98, trine 8 in 112–128, opposition 4 in 172–188, else no
aspect); it is invariant under adding any integer multiple of 360 to either
argument, and `calculate_aspect_score 358 2 = (10, conjunction, 4)`. -/
theorem aspect_score_correct :
    (∀ p1 p2 : ℚ, calculate_aspect_score p1 p2 = aspect_score_spec p1 p2) ∧
    (∀ (p1 p2 : ℚ) (k : ℤ),
      calculate_aspect_score (p1 + 360 * k) p2 = calculate_aspect_score p1 p2 ∧
      calculate_aspect_score p1 (p2 + 360 * k) = calculate_aspect_score p1 p2) ∧
    calculate_aspect_score 358 2 = (10, some "conjunction", 4) := by
  refine ⟨?_, ?_, by decide⟩
  · intro p1 p2
    have h0 := fmod_nonneg |p1 - p2| (b := 360) (by norm_num)
    have h1 := fmod_lt |p1 - p2| (b := 360) (by norm_num)
    rw [calculate_aspect_score_eq_fromDiff]
    unfold aspect_score_spec angularSep
    rw [foldAngle_eq_min h0 h1]
    rfl
  · intro p1 p2 k
    constructor
    · rw [calculate_aspect_score_eq_fromDiff, calculate_aspect_score_eq_fromDiff,
        angularSep_shift]
    · rw [calculate_aspect_score_eq_fromDiff, calculate_aspect_score_eq_fromDiff,
        angularSep_comm, angularSep_shift, angularSep_comm]

/-- C3 counterexample: a 20-year-old in the same-sex branch gets the window
(18, 24), whose width is 6, not 8, refuting the claim that
`max_age - min_age = 8` for every input. -/
theorem age_range_width_counterexample :
    calculate_age_range 20 (some "male") (some "male") = (18, 24) ∧
    ¬((24 : ℤ) - 18 = 8) := by decide

/-- C3 amended: `calculate_age_range` is total; the under-18 branch returns
exactly (18, 26); every result has width 8 except the
remaining-combinations branch for ages 18–21, where the minimum clamps to
18 and the result is exactly (18, user_age + 4) with width between 4
and 7. -/
theorem age_range_width (user_age : ℤ) (g s : Option String) :
    (user_age < 18 → calculate_age_range user_age g s = (18, 26)) ∧
    ((calculate_age_range user_age g s).2 - (calculate_age_range user_age g s).1 = 8 ∨
      (18 ≤ user_age ∧ user_age ≤ 21 ∧
        ¬(g = some "male" ∧ s = some "female") ∧
        ¬(g = some "female" ∧ s = some "male") ∧
        calculate_age_range user_age g s = (18, user_age + 4))) := by
  unfold calculate_age_range
  split_ifs with h1 h2 h3
  · exact ⟨fun _ => rfl, Or.inl (by norm_num)⟩
  · refine ⟨fun h => absurd h (by omega), Or.inl ?_⟩
    show (max 18 (user_age / 2 + 7) + 8) - max 18 (user_age / 2 + 7) = 8
    generalize max 18 (user_age / 2 + 7) = M
    omega
  · refine ⟨fun h => absurd h (by omega), Or.inl ?_⟩
    show (user_age + 8) - max 18 user_age = 8
    rw [max_eq_right (by omega : (18 : ℤ) ≤ user_age)]
    omega
  · refine ⟨fun h => absurd h (by omega), ?_⟩
    rcases le_or_lt 22 user_age with h4 | h4
    · refine Or.inl ?_
      show (user_age + 4) - max 18 (user_age - 4) = 8
      rw [max_eq_right (by omega : (18 : ℤ) ≤ user_age - 4)]
      omega
    · refine Or.inr ⟨by omega, by omega, h2, h3, ?_⟩
      show (max 18 (user_age - 4), user_age + 4) = (18, user_age + 4)
      rw [max_eq_left (by omega : user_age - 4 ≤ (18 : ℤ))]

/-- C3 witness: instantiation of the amended statement at a concrete input
in the clamped branch. -/
theorem age_range_width_witness :
    calculate_age_range 20 (some "male") (some "male") = (18, 24) := by
  rcases (age_range_width 20 (some "male") (some "male")).2 with h | h
  · exfalso
    revert h
    decide
  · rw [h.2.2.2.2]
    decide

/-- C4: the three adult branches of `calculate_age_range` compute exactly the
claimed formulas (half-age-plus-seven for male seeking female, own age for
female seeking male, ±4 years otherwise), with the three concrete examples
from the claim. -/
theorem age_range_formulas (user_age : ℤ) (g s : Option String)
    (h : 18 ≤ user_age) :
    (g = some "male" → s = some "female" →
      calculate_age_range user_age g s =
        (max 18 (user_age / 2 + 7), max 18 (user_age / 2 + 7) + 8)) ∧
    (g = some "female" → s = some "male" →
      calculate_age_range user_age g s = (max 18 user_age, user_age + 8)) ∧
    (¬(g = some "male" ∧ s = some "female") →
      ¬(g = some "female" ∧ s = some "male") →
      calculate_age_range user_age g s = (max 18 (user_age - 4), user_age + 4)) ∧
    calculate_age_range 30 (some "male") (some "female") = (22, 30) ∧
    calculate_age_range 30 (some "female") (some "male") = (30, 38) ∧
    calculate_age_range 25 (some "male") (some "male") = (21, 29) := by
  refine ⟨?_, ?_, ?_, by decide, by decide, by decide⟩
  · intro hg hs
    unfold calculate_age_range
    rw [if_neg (by omega), if_pos ⟨hg, hs⟩]
  · intro hg hs
    unfold calculate_age_range
    rw [if_neg (by omega), if_neg (by simp [hg]), if_pos ⟨hg, hs⟩]
  · intro hmf hfm
    unfold calculate_age_range
    rw [if_neg (by omega), if_neg hmf, if_neg hfm]

/-- C4 witness: instantiation of the branch formulas at concrete inputs. -/
theorem age_range_formulas_witness :
    calculate_age_range 30 (some "male") (some "female") =
      (max 18 ((30 : ℤ) / 2 + 7), max 18 ((30 : ℤ) / 2 + 7) + 8) :=
  (age_range_formulas 30 (some "male") (some "female") (by norm_num)).1 rfl rfl

/-- C6: the North-Node bonus equals the capped sum of +4 (Sun), +4 (Moon)
and +3 (Venus) matches, always lies in [0, 8], equals exactly 8 when all
three signs match, and is monotone non-decreasing as more of the three
signs match. -/
theorem north_node_bonus_correct (node s m v : String) :
    score_north_node_contacts node s m v =
      min ((if s = node then (4 : ℤ) else 0) + (if m = node then 4 else 0) +
        (if v = node then 3 else 0)) 8 ∧
    0 ≤ score_north_node_contacts node s m v ∧
    score_north_node_contacts node s m v ≤ 8 ∧
    score_north_node_contacts node node node node = 8 ∧
    (∀ s2 m2 v2 : String,
      (s = node → s2 = node) → (m = node → m2 = node) → (v = node → v2 = node) →
      score_north_node_contacts node s m v ≤
        score_north_node_contacts node s2 m2 v2) := by
  refine ⟨?_, ?_, ?_, ?_, ?_⟩
  · unfold score_north_node_contacts
    split_ifs <;> norm_num
  · unfold score_north_node_contacts
    split_ifs <;> norm_num
  · unfold score_north_node_contacts
    split_ifs <;> norm_num
  · unfold score_north_node_contacts
    simp
  · intro s2 m2 v2 h1 h2 h3
    unfold score_north_node_contacts
    split_ifs <;> first | omega | tauto

theorem round_sqrt_div_38 (a : ℕ) :
    round (Real.sqrt a / 38) = (((Nat.sqrt a + 19) / 38 : ℕ) : ℤ) := by
  have hy : (0:ℝ) ≤ Real.sqrt a := Real.sqrt_nonneg _
  rw [round_eq]
  have h1 : Real.sqrt a / 38 + 1/2 = (Real.sqrt a + 19) / ((38 : ℕ) : ℝ) := by
    push_cast
    ring
  rw [h1]
  rw [← Int.natCast_floor_eq_floor (by positivity : (0:ℝ) ≤ (Real.sqrt a + 19) / ((38 : ℕ) : ℝ))]
  rw [Nat.floor_div_nat (Real.sqrt (a : ℝ) + 19) 38]
  have h2 : ⌊Real.sqrt (a : ℝ) + 19⌋₊ = ⌊Real.sqrt (a : ℝ) + (19 : ℕ)⌋₊ := by norm_num
  rw [h2, Nat.floor_add_nat hy 19, Real.nat_floor_real_sqrt_eq_nat_sqrt]

theorem to_percent_eq_real (s : ℤ) :
    score_to_compatibility_percent s = to_percent_real s := by
  unfold score_to_compatibility_percent to_percent_real
  rcases le_or_lt s 0 with h | h
  · rw [if_pos h, if_pos h]
  · rw [if_neg (not_le.mpr h), if_neg (not_le.mpr h)]
    have h38 : ((RELATIONSHIP_SCORE_BASE + NORTH_NODE_BONUS_MAX : ℤ) : ℝ) = 38 := by
      norm_num [RELATIONSHIP_SCORE_BASE, NORTH_NODE_BONUS_MAX]
    rw [h38]
    have hsa : (s : ℝ) = ((s.toNat : ℕ) : ℝ) := by
      have := Int.toNat_of_nonneg (le_of_lt h)
      exact_mod_cast this.symm
    have key : Real.sqrt ((s:ℝ)/38) * 100 =
        Real.sqrt ((380000 * s.toNat : ℕ) : ℝ) / 38 := by
      have hs0 : (0:ℝ) ≤ (s:ℝ)/38 := by rw [hsa]; positivity
      have harg : ((s:ℝ))/38 * (100*100) =
          ((380000 * s.toNat : ℕ) : ℝ) * ((1/38)*(1/38)) := by
        rw [hsa]; push_cast; ring
      calc Real.sqrt ((s:ℝ)/38) * 100
          = Real.sqrt ((s:ℝ)/38) * Real.sqrt (100*100) := by
            rw [show ((100:ℝ)*100) = 100^2 by ring,
              Real.sqrt_sq (by norm_num : (0:ℝ) ≤ 100)]
        _ = Real.sqrt ((s:ℝ)/38 * (100*100)) := (Real.sqrt_mul hs0 _).symm
        _ = Real.sqrt (((380000 * s.toNat : ℕ) : ℝ) * ((1/38)*(1/38))) := by
            rw [harg]
        _ = Real.sqrt ((380000 * s.toNat : ℕ) : ℝ) * Real.sqrt ((1/38)*(1/38)) := by
            exact Real.sqrt_mul (by positivity) _
        _ = Real.sqrt ((380000 * s.toNat : ℕ) : ℝ) * (1/38) := by
            rw [show ((1:ℝ)/38)*(1/38) = (1/38)^2 by ring,
              Real.sqrt_sq (by norm_num : (0:ℝ) ≤ 1/38)]
        _ = Real.sqrt ((380000 * s.toNat : ℕ) : ℝ) / 38 := by ring
    rw [key, round_sqrt_div_38, isqrt_eq_sqrt]

/-- C7: for every integer score, `score_to_compatibility_percent` returns 0
for non-positive scores and otherwise
`min 100 (round (sqrt (score / 38) * 100))`; the result always lies in
[0, 100], and the concrete values are 0 ↦ 0, 38 ↦ 100, 19 ↦ 71,
56 ↦ 100. -/
theorem to_percent_correct :
    (∀ s : ℤ, score_to_compatibility_percent s = to_percent_real s) ∧
    (∀ s : ℤ, s ≤ 0 → score_to_compatibility_percent s = 0) ∧
    (∀ s : ℤ, 0 ≤ score_to_compatibility_percent s ∧
      score_to_compatibility_percent s ≤ 100) ∧
    score_to_compatibility_percent 0 = 0 ∧
    score_to_compatibility_percent 38 = 100 ∧
    score_to_compatibility_percent 19 = 71 ∧
    score_to_compatibility_percent 56 = 100 := by
  refine ⟨to_percent_eq_real, ?_, ?_, by decide, by decide, by decide, by decide⟩
  · intro s hs
    unfold score_to_compatibility_percent
    rw [if_pos hs]
  · intro s
    unfold score_to_compatibility_percent
    split_ifs with hs
    · exact ⟨le_refl 0, by norm_num⟩
    · exact ⟨le_min (by norm_num) (Int.natCast_nonneg _), min_le_left _ _⟩

/-- C7 witness: the non-positive branch instantiated at a concrete
negative score. -/
theorem to_percent_correct_witness : score_to_compatibility_percent (-3) = 0 :=
  to_percent_correct.2.1 (-3) (by decide)

/-- C6 witness: monotonicity instantiated at a concrete point where one
additional sign matches. -/
theorem north_node_bonus_correct_witness :
    score_north_node_contacts "Leo" "Ari" "Leo" "Tau" ≤
      score_north_node_contacts "Leo" "Leo" "Leo" "Leo" :=
  (north_node_bonus_correct "Leo" "Ari" "Leo" "Tau").2.2.2.2 "Leo" "Leo" "Leo"
    (by intro h; exact rfl) (by intro h; exact rfl) (by intro h; exact rfl)

theorem find_hour_unfold (P : Provider) (y mo d : ℤ) (t : String)
    (la lo : ℚ) (tz : String) :
    find_hour_for_ascendant_fast P y mo d t la lo tz =
      match P.calcChart (midnightBirth y mo d la lo tz) with
      | .error _ => (12, 0)
      | .ok mc =>
        let est := estimateFromMidnightAsc t (getPointPos mc "ascendant")
        match P.calcChart ⟨y, mo, d, est.1, est.2, la, lo, tz⟩ with
        | .error _ => est
        | .ok vc =>
          if getPointSignD vc "ascendant" "" = t then est
          else correctedEstimate t est (getPointPos vc "ascendant") := rfl

theorem wrapSignedError_bounds {e : ℚ} (h0 : 0 ≤ e) (h1 : e < 360) :
    -180 ≤ wrapSignedError e ∧ wrapSignedError e ≤ 180 := by
  unfold wrapSignedError
  split_ifs with h <;> constructor <;> linarith

/-- C8: `_find_hour_for_ascendant_fast` is total over the provider outcomes
and behaves as claimed on each return path: midnight-chart failure yields
exactly (12, 0); verification failure yields the unverified 4-minutes-per-
degree estimate; a verified matching Ascendant sign yields the estimate
unchanged; otherwise the estimate is corrected by the signed error wrapped
into [-180, 180] times 4 minutes, with no second verification. -/
theorem solver_paths (P : Provider) (y mo d : ℤ) (t : String) (la lo : ℚ)
    (tz : String) :
    (∀ e, P.calcChart (midnightBirth y mo d la lo tz) = .error e →
      find_hour_for_ascendant_fast P y mo d t la lo tz = (12, 0)) ∧
    (∀ mc, P.calcChart (midnightBirth y mo d la lo tz) = .ok mc →
      (∀ e, P.calcChart ⟨y, mo, d,
          (estimateFromMidnightAsc t (getPointPos mc "ascendant")).1,
          (estimateFromMidnightAsc t (getPointPos mc "ascendant")).2,
          la, lo, tz⟩ = .error e →
        find_hour_for_ascendant_fast P y mo d t la lo tz =
          estimateFromMidnightAsc t (getPointPos mc "ascendant")) ∧
      (∀ vc, P.calcChart ⟨y, mo, d,
          (estimateFromMidnightAsc t (getPointPos mc "ascendant")).1,
          (estimateFromMidnightAsc t (getPointPos mc "ascendant")).2,
          la, lo, tz⟩ = .ok vc →
        (getPointSignD vc "ascendant" "" = t →
          find_hour_for_ascendant_fast P y mo d t la lo tz =
            estimateFromMidnightAsc t (getPointPos mc "ascendant")) ∧
        (¬getPointSignD vc "ascendant" "" = t →
          find_hour_for_ascendant_fast P y mo d t la lo tz =
            correctedEstimate t
              (estimateFromMidnightAsc t (getPointPos mc "ascendant"))
              (getPointPos vc "ascendant") ∧
          -180 ≤ wrapSignedError
            (fmod (targetCenter t - getPointPos vc "ascendant") 360) ∧
          wrapSignedError
            (fmod (targetCenter t - getPointPos vc "ascendant") 360) ≤ 180))) := by
  constructor
  · intro e h
    rw [find_hour_unfold, h]
  · intro mc hmc
    constructor
    · intro e h
      rw [find_hour_unfold, hmc]
      simp only
      rw [h]
    · intro vc hvc
      constructor
      · intro hsign
        rw [find_hour_unfold, hmc]
        simp only
        rw [hvc]
        simp only [if_pos hsign]
      · intro hsign
        refine ⟨?_, ?_, ?_⟩
        · rw [find_hour_unfold, hmc]
          simp only
          rw [hvc]
          simp only [if_neg hsign]
        · exact (wrapSignedError_bounds
            (fmod_nonneg _ (by norm_num)) (fmod_lt _ (by norm_num))).1
        · exact (wrapSignedError_bounds
            (fmod_nonneg _ (by norm_num)) (fmod_lt _ (by norm_num))).2

/-- C10: on every return path and for every provider behavior, the pair
returned by `_find_hour_for_ascendant_fast` satisfies `0 ≤ hour ≤ 23` and
`0 ≤ minute ≤ 59`, so the `BirthData` built from it meets the time
validity invariant. -/
theorem solver_time_valid (P : Provider) (y mo d : ℤ) (t : String)
    (la lo : ℚ) (tz : String) :
    0 ≤ (find_hour_for_ascendant_fast P y mo d t la lo tz).1 ∧
    (find_hour_for_ascendant_fast P y mo d t la lo tz).1 ≤ 23 ∧
    0 ≤ (find_hour_for_ascendant_fast P y mo d t la lo tz).2 ∧
    (find_hour_for_ascendant_fast P y mo d t la lo tz).2 ≤ 59 := by
  rw [find_hour_unfold]
  cases hmc : P.calcChart (midnightBirth y mo d la lo tz) with
  | error e => norm_num
  | ok mc =>
    simp only
    set est := estimateFromMidnightAsc t (getPointPos mc "ascendant") with hest
    have hestval : est = ((pyTrunc (fmod (targetCenter t -
        getPointPos mc "ascendant") 360 * 4) / 60) % 24,
        pyTrunc (fmod (targetCenter t - getPointPos mc "ascendant") 360 * 4)
          % 60) := rfl
    have hbounds : 0 ≤ est.1 ∧ est.1 ≤ 23 ∧ 0 ≤ est.2 ∧ est.2 ≤ 59 := by
      rw [hestval]
      refine ⟨?_, ?_, ?_, ?_⟩ <;> simp only <;> omega
    cases hvc : P.calcChart ⟨y, mo, d, est.1, est.2, la, lo, tz⟩ with
    | error e => exact hbounds
    | ok vc =>
      dsimp only
      split_ifs with hsign
      · exact hbounds
      · unfold correctedEstimate
        simp only
        constructor
        · omega
        constructor
        · omega
        constructor
        · omega
        · omega

/-- C8 witness: the midnight-failure path instantiated at the always-failing
provider. -/
theorem solver_paths_witness :
    find_hour_for_ascendant_fast failProvider 2000 6 15 "Lib" 0 0
      "Europe/London" = (12, 0) :=
  (solver_paths failProvider 2000 6 15 "Lib" 0 0 "Europe/London").1 () rfl

/-- C1 counterexample: with the external evaluator returning its documented
maximum 48 and a candidate whose Sun, Moon and Venus all match the user's
North Node sign, `_calculate_relationship_score` returns 56: the total is
capped at `MAX_COMPATIBILITY_SCORE = 56`, not at 38, so the returned score
can exceed 38. -/
theorem relationship_score_cap_counterexample :
    calculate_relationship_score evalMax48 userChartLeoNode mateChartTripleLeo
      = 56 ∧
    ¬calculate_relationship_score evalMax48 userChartLeoNode mateChartTripleLeo
      ≤ 38 := by decide

/-- C1 amended: the relationship score equals the base score (external
evaluator result, or fallback heuristic when the evaluator fails or a
provider handle is missing) capped at 48, plus the North-Node bonus
(0–8), with the total capped at `MAX_COMPATIBILITY_SCORE = 56` (not 38)
before returning; hence the returned score never exceeds 56 (and can
exceed 38, up to 56). -/
theorem relationship_score_formula (ev : ℤ → ℤ → Except Unit ℤ)
    (u m : NatalChart) :
    calculate_relationship_score ev u m =
      min (min (relationshipBase ev u m) 48 + northNodeBonusOf u m) 56 ∧
    0 ≤ northNodeBonusOf u m ∧
    northNodeBonusOf u m ≤ 8 ∧
    calculate_relationship_score ev u m ≤ 56 := by
  refine ⟨rfl, ?_, ?_, ?_⟩
  · unfold northNodeBonusOf score_north_node_contacts
    split_ifs <;> norm_num
  · unfold northNodeBonusOf score_north_node_contacts
    split_ifs <;> norm_num
  · have : calculate_relationship_score ev u m =
        min (min (relationshipBase ev u m) 48 + northNodeBonusOf u m) 56 := rfl
    rw [this]
    exact min_le_right _ _

theorem angularSep_eq_specMinSep (a b : ℚ) : angularSep a b = specMinSep a b := by
  unfold angularSep specMinSep
  exact foldAngle_eq_min (fmod_nonneg _ (by norm_num)) (fmod_lt _ (by norm_num))

theorem prefilterScore_spec_form (usp ump : ℚ) (uss : String)
    (q : EphemerisPoint) :
    prefilterScore usp ump uss q =
      (if specMinSep q.sun_abs_pos ump ≤ 10
        then 20 - specMinSep q.sun_abs_pos ump else 0) +
      (if specMinSep q.moon_abs_pos usp ≤ 10
        then 20 - specMinSep q.moon_abs_pos usp else 0) +
      (if dictGetD SUN_QUALITY q.sun_sign "Fixed" =
          dictGetD SUN_QUALITY uss "Fixed" then 5 else 0) := by
  simp only [prefilterScore, angularSep_eq_specMinSep]
  split_ifs <;> ring

theorem prefilterScore_ge_40 (usp ump : ℚ) (uss : String) (p : EphemerisPoint)
    (h1 : angularSep p.sun_abs_pos ump = 0)
    (h2 : angularSep p.moon_abs_pos usp = 0) :
    40 ≤ prefilterScore usp ump uss p := by
  simp only [prefilterScore, h1, h2]
  norm_num
  split_ifs <;> norm_num

theorem prefilterScore_le_5 (usp ump : ℚ) (uss : String) (q : EphemerisPoint)
    (h1 : 10 < angularSep q.sun_abs_pos ump)
    (h2 : 10 < angularSep q.moon_abs_pos usp) :
    prefilterScore usp ump uss q ≤ 5 := by
  simp only [prefilterScore, if_neg (not_le.mpr h1), if_neg (not_le.mpr h2)]
  split_ifs <;> norm_num

theorem mem_prefilter_candidates {usp ump : ℚ} {uss : String}
    {pts : List EphemerisPoint} {c : ℚ × ℕ × EphemerisPoint} :
    (c ∈ pts.enum.filterMap (fun ip =>
      let s := prefilterScore usp ump uss ip.2
      if s > 0 then some (s, ip.1, ip.2) else none)) ↔
    (pts.get? c.2.1 = some c.2.2 ∧
      c.1 = prefilterScore usp ump uss c.2.2 ∧ 0 < c.1) := by
  rw [List.mem_filterMap]
  constructor
  · rintro ⟨⟨j, q⟩, hmem, hf⟩
    simp only at hf
    split_ifs at hf with hpos
    · injection hf with hf
      subst hf
      exact ⟨List.mem_enum_iff_get?.mp hmem, rfl, hpos⟩
  · rintro ⟨hget, hscore, hpos⟩
    refine ⟨(c.2.1, c.2.2), List.mem_enum_iff_get?.mpr hget, ?_⟩
    simp only
    rw [if_pos (hscore ▸ hpos)]
    rw [← hscore]

theorem insertDesc_perm (x : ℚ × ℕ × EphemerisPoint)
    (l : List (ℚ × ℕ × EphemerisPoint)) :
    List.Perm (insertDesc x l) (x :: l) := by
  induction l with
  | nil => exact List.Perm.refl _
  | cons y ys ih =>
    unfold insertDesc
    split_ifs with h
    · exact (ih.cons y).trans (List.Perm.swap x y ys)
    · exact List.Perm.refl _

theorem insertDesc_sorted (x : ℚ × ℕ × EphemerisPoint)
    (l : List (ℚ × ℕ × EphemerisPoint))
    (hs : l.Pairwise (fun a b => b.1 ≤ a.1)) :
    (insertDesc x l).Pairwise (fun a b => b.1 ≤ a.1) := by
  induction l with
  | nil => simp [insertDesc]
  | cons y ys ih =>
    rw [List.pairwise_cons] at hs
    unfold insertDesc
    split_ifs with h
    · rw [List.pairwise_cons]
      constructor
      · intro z hz
        rcases List.mem_cons.mp ((insertDesc_perm x ys).mem_iff.mp hz)
          with rfl | hz2
        · exact le_of_lt h
        · exact hs.1 z hz2
      · exact ih hs.2
    · rw [List.pairwise_cons]
      refine ⟨?_, List.pairwise_cons.mpr hs⟩
      intro z hz
      rcases List.mem_cons.mp hz with rfl | hz2
      · exact not_lt.mp h
      · exact le_trans (hs.1 z hz2) (not_lt.mp h)

theorem sortDesc_perm (l : List (ℚ × ℕ × EphemerisPoint)) :
    List.Perm (sortDesc l) l := by
  induction l with
  | nil => exact List.Perm.refl _
  | cons y ys ih =>
    unfold sortDesc at ih ⊢
    simp only [List.foldr_cons]
    exact (insertDesc_perm y _).trans (ih.cons y)

theorem sortDesc_sorted (l : List (ℚ × ℕ × EphemerisPoint)) :
    (sortDesc l).Pairwise (fun a b => b.1 ≤ a.1) := by
  induction l with
  | nil => simp [sortDesc]
  | cons y ys ih =>
    unfold sortDesc at ih ⊢
    simp only [List.foldr_cons]
    exact insertDesc_sorted y _ ih

theorem topUpAux_head_of_ne_nil :
    ∀ (l : List (ℕ × EphemerisPoint)) (acc : List (ℚ × ℕ × EphemerisPoint))
      (ids : List ℕ), acc ≠ [] → (topUpAux l acc ids).head? = acc.head? := by
  intro l
  induction l with
  | nil => intro acc ids hne; rfl
  | cons ip rest ih =>
    intro acc ids hne
    obtain ⟨i, p⟩ := ip
    unfold topUpAux
    by_cases hmem : i ∈ ids
    · rw [if_pos hmem]
      exact ih acc ids hne
    · rw [if_neg hmem]
      have hhead : (acc ++ [((0 : ℚ), i, p)]).head? = acc.head? := by
        cases acc with
        | nil => exact absurd rfl hne
        | cons a as => simp
      show (if (acc ++ [((0 : ℚ), i, p)]).length ≥ 100
        then acc ++ [((0 : ℚ), i, p)]
        else topUpAux rest (acc ++ [((0 : ℚ), i, p)]) ids).head? = acc.head?
      by_cases hlen : (acc ++ [((0 : ℚ), i, p)]).length ≥ 100
      · rw [if_pos hlen, hhead]
      · rw [if_neg hlen, ih _ ids (by simp), hhead]

/-- C9 counterexample: for a user with Sun 0° / Moon 100° (Sun sign Tau,
Fixed), `perfectPoint` is the unique point at a perfect Sun–Moon
cross-conjunction, yet the pre-filter ranks `nearPoint` (one degree off
but carrying the +5 modality bonus, scoring 44 against 40) first, so a
unique perfect cross-conjunction point does not always rank first as
claimed. -/
theorem prefilter_rank_counterexample :
    angularSep perfectPoint.sun_abs_pos 100 = 0 ∧
    angularSep perfectPoint.moon_abs_pos 0 = 0 ∧
    ¬(angularSep nearPoint.sun_abs_pos 100 = 0 ∧
      angularSep nearPoint.moon_abs_pos 0 = 0) ∧
    (prefilterCandidates 0 100 "Tau" [perfectPoint, nearPoint]).head? =
      some (44, 1, nearPoint) := by decide

/-- C9 amended: the pre-filter scores each point as
`(20 - d1 if d1 ≤ 10 else 0) + (20 - d2 if d2 ≤ 10 else 0) + (5 on a Sun
modality match)` with the separations computed as
`min (|a-b| mod 360) (360 - (|a-b| mod 360))`; it retains positive-score
points sorted descending (stable), keeps at most the top 100, and tops up
with score-0 points when fewer than 50 qualify; a unique point at perfect
Sun–Moon cross-conjunction ranks first provided every other point of the
sequence is unrelated (both separations above 10°, so that no other point
can outscore it via the modality bonus). -/
theorem prefilter_ranking (usp ump : ℚ) (uss : String)
    (pts : List EphemerisPoint) (i : ℕ) (p : EphemerisPoint)
    (hip : pts.get? i = some p)
    (hperf1 : angularSep p.sun_abs_pos ump = 0)
    (hperf2 : angularSep p.moon_abs_pos usp = 0)
    (hothers : ∀ j q, j ≠ i → pts.get? j = some q →
      10 < angularSep q.sun_abs_pos ump ∧ 10 < angularSep q.moon_abs_pos usp) :
    (∀ q, prefilterScore usp ump uss q =
      (if specMinSep q.sun_abs_pos ump ≤ 10
        then 20 - specMinSep q.sun_abs_pos ump else 0) +
      (if specMinSep q.moon_abs_pos usp ≤ 10
        then 20 - specMinSep q.moon_abs_pos usp else 0) +
      (if dictGetD SUN_QUALITY q.sun_sign "Fixed" =
          dictGetD SUN_QUALITY uss "Fixed" then 5 else 0)) ∧
    (prefilterCandidates usp ump uss pts).head? =
      some (prefilterScore usp ump uss p, i, p) ∧
    40 ≤ prefilterScore usp ump uss p := by
  have hp40 : 40 ≤ prefilterScore usp ump uss p :=
    prefilterScore_ge_40 usp ump uss p hperf1 hperf2
  refine ⟨fun q => prefilterScore_spec_form usp ump uss q, ?_, hp40⟩
  unfold prefilterCandidates
  set f : ℕ × EphemerisPoint → Option (ℚ × ℕ × EphemerisPoint) := fun ip =>
    let s := prefilterScore usp ump uss ip.2
    if s > 0 then some (s, ip.1, ip.2) else none with hf
  set candidates := pts.enum.filterMap f with hcand
  have hmemp : ((prefilterScore usp ump uss p, i, p) : ℚ × ℕ × EphemerisPoint)
      ∈ candidates := by
    rw [hcand, mem_prefilter_candidates]
    exact ⟨hip, rfl, by linarith⟩
  have hmem_sorted : ((prefilterScore usp ump uss p, i, p) :
      ℚ × ℕ × EphemerisPoint) ∈ sortDesc candidates :=
    (sortDesc_perm candidates).mem_iff.mpr hmemp
  obtain ⟨x, rest, hxr⟩ : ∃ x rest, sortDesc candidates = x :: rest := by
    cases hms : sortDesc candidates with
    | nil => rw [hms] at hmem_sorted; cases hmem_sorted
    | cons x rest => exact ⟨x, rest, rfl⟩
  have hsorted : (sortDesc candidates).Pairwise (fun a b => b.1 ≤ a.1) :=
    sortDesc_sorted candidates
  have hx_ge : ∀ c ∈ sortDesc candidates, c.1 ≤ x.1 := by
    intro c hc
    rw [hxr] at hc hsorted
    rcases List.mem_cons.mp hc with rfl | hc2
    · exact le_refl _
    · exact (List.pairwise_cons.mp hsorted).1 c hc2
  have hx_mem : x ∈ candidates := by
    refine (sortDesc_perm candidates).mem_iff.mp ?_
    rw [hxr]
    exact List.mem_cons_self x rest
  have hx_char :
      pts.get? x.2.1 = some x.2.2 ∧
        x.1 = prefilterScore usp ump uss x.2.2 ∧ 0 < x.1 :=
    mem_prefilter_candidates.mp (by rw [hcand] at hx_mem; exact hx_mem)
  have hx_eq : x = (prefilterScore usp ump uss p, i, p) := by
    obtain ⟨hxget, hxscore, hxpos⟩ := hx_char
    by_cases hxi : x.2.1 = i
    · have hq : x.2.2 = p := by
        rw [hxi] at hxget
        rw [hip] at hxget
        injection hxget with h
        exact h.symm
      have : x = (x.1, x.2.1, x.2.2) := rfl
      rw [this, hxi, hq, hxscore, hq]
    · exfalso
      have hsep := hothers x.2.1 x.2.2 hxi hxget
      have hle5 : prefilterScore usp ump uss x.2.2 ≤ 5 :=
        prefilterScore_le_5 usp ump uss x.2.2 hsep.1 hsep.2
      have hge : (prefilterScore usp ump uss p : ℚ) ≤ x.1 :=
        hx_ge _ hmem_sorted
      rw [hxscore] at hge
      linarith
  have htake : ((sortDesc candidates).take 100).head? = some x := by
    rw [hxr]
    rfl
  simp only
  split_ifs with hlen
  · rw [topUpAux_head_of_ne_nil _ _ _ ?hne, htake, hx_eq]
    case hne =>
      intro hnil
      rw [hnil] at htake
      cases htake
  · rw [htake, hx_eq]

/-- C9 witness: instantiation of the amended ranking statement on a
two-point ephemeris (one perfect cross-conjunction point, one unrelated
point). -/
theorem prefilter_ranking_witness :
    (prefilterCandidates 0 100 "Tau" [perfectPoint, farPoint]).head? =
      some (prefilterScore 0 100 "Tau" perfectPoint, 0, perfectPoint) :=
  (prefilter_ranking 0 100 "Tau" [perfectPoint, farPoint] 0 perfectPoint rfl
    (by decide) (by decide)
    (by
      intro j q hj hq
      match j, hq with
      | 0, hq => exact absurd rfl hj
      | 1, hq => injection hq with h; rw [← h]; exact ⟨by decide, by decide⟩
      | (n+2), hq => cases hq)).2.1

/-- C2 counterexample: a provider for which the initial user-chart
calculation succeeds, yet `generate_soulmate_chart` returns an error: the
single candidate's chart calculation fails inside the score loop and is
not skipped but propagated. -/
theorem search_skip_counterexample :
    midnightOnlyProvider.calcChart midnightUserBirth = .ok chartAsc0 ∧
    generate_soulmate_chart midnightOnlyProvider 2025 midnightUserBirth
      none none = .error () := by decide

/-- C2 amended: `generate_soulmate_chart` propagates the initial user-chart
failure, but also propagates any candidate chart-calculation failure
inside the score loop (the candidate is not skipped); when the ephemeris
is empty the search falls back to a fixed BirthMoment at the midpoint
birth year of the age window, month 6, day 15, and returns a result
precisely when that fallback chart calculation succeeds (its failure also
propagates). -/
theorem search_failure_semantics :
    (∀ (P : Provider) (cy : ℤ) (bd : BirthData) (g s : Option String)
       (e : Unit), P.calcChart bd = .error e →
      generate_soulmate_chart P cy bd g s = .error e) ∧
    (∀ (P : Provider) (uc : NatalChart) (ubd : BirthData) (t : String)
       (c : ℚ × ℕ × EphemerisPoint) (ctail : List (ℚ × ℕ × EphemerisPoint))
       (best : Option (BirthData × NatalChart)) (bscore : ℤ) (e : Unit),
      P.calcChart (candidateBirthData P ubd t c.2.2) = .error e →
      scoreLoop P uc ubd t (c :: ctail) best bscore = .error e) ∧
    (∀ (P : Provider) (cy : ℤ) (bd : BirthData) (g s : Option String)
       (uc : NatalChart), P.calcChart bd = .ok uc →
      (∀ a b, P.ephemeris a b = []) →
      (fallbackBirthData P bd (targetRisingOf uc) (fallbackYearOf cy bd g s)).month
          = 6 ∧
      (fallbackBirthData P bd (targetRisingOf uc) (fallbackYearOf cy bd g s)).day
          = 15 ∧
      (fallbackBirthData P bd (targetRisingOf uc) (fallbackYearOf cy bd g s)).year
          = fallbackYearOf cy bd g s ∧
      generate_soulmate_chart P cy bd g s =
        Except.map (fun ch => build_response ch
          (calculate_relationship_score P.relationshipScore uc ch)
          (getPlanetSign uc "venus") (getPlanetSign uc "mars")
          (getAscendantSign uc)
          (fallbackBirthData P bd (targetRisingOf uc)
            (fallbackYearOf cy bd g s)).year)
        (P.calcChart (fallbackBirthData P bd (targetRisingOf uc)
          (fallbackYearOf cy bd g s)))) := by
  refine ⟨?_, ?_, ?_⟩
  · intro P cy bd g s e h
    unfold generate_soulmate_chart
    rw [h]
  · intro P uc ubd t c ctail best bscore e h
    obtain ⟨cs, ci, cp⟩ := c
    dsimp only at h
    unfold scoreLoop
    simp only [h]
  · intro P cy bd g s uc huser hep
    refine ⟨rfl, rfl, rfl, ?_⟩
    have hfb : find_best_birth_date P cy uc bd (targetRisingOf uc) g s =
        (match P.calcChart (fallbackBirthData P bd (targetRisingOf uc)
            (fallbackYearOf cy bd g s)) with
         | .error e => .error e
         | .ok ch => .ok (fallbackBirthData P bd (targetRisingOf uc)
             (fallbackYearOf cy bd g s), ch,
             calculate_relationship_score P.relationshipScore uc ch)) := by
      simp only [find_best_birth_date, hep]
      rfl
    simp only [targetRisingOf] at hfb ⊢
    unfold generate_soulmate_chart
    rw [huser]
    simp only
    rw [hfb]
    cases hc : P.calcChart (fallbackBirthData P bd
        (dictGetD OPPOSITE_SIGNS (getAscendantSign uc) "Lib")
        (fallbackYearOf cy bd g s)) with
    | error e => rfl
    | ok ch => rfl

/-- C2 witness: the user-chart-failure conjunct of the amended statement
instantiated at the always-failing provider. -/
theorem search_failure_semantics_witness :
    generate_soulmate_chart failProvider 2025 midnightUserBirth none none =
      .error () :=
  search_failure_semantics.1 failProvider 2025 midnightUserBirth none none () rfl

end Soulmate
